import Mathlib

/-!
Shallow embedding of the municipal issue-reporting client
(src/website/app.js) in Lean 4.

The page is a single event-driven module: module-scoped globals
(`marker`, `selectedLocation`), a form, a photo-preview container, a
dashboard, a search-result list, a success modal and window alerts.
We model the whole observable client state as one structure and each
DOM/network event handler of app.js as a pure state-transition
function.  Network calls are modelled by an explicit outcome value
(success with parsed body / 2xx body that fails JSON parsing /
non-2xx status / transport-level throw), one constructor per control
path the JS code can take around `fetch`.  Asynchronous photo reads
are modelled by their quiescent result (the previews present once all
FileReader `onload` callbacks have run, assuming reads succeed).
-/

/-- A latitude/longitude pair, as delivered by a Leaflet click event
(`e.latlng`).  JS numbers are modelled as rationals. -/
structure Coord where
  lat : Rat
  lng : Rat
deriving DecidableEq

/-- A report object as consumed by `displayReports` /
`createReportElement` (fields id, issueType, description, location,
status, timestamp, optional lastUpdate). -/
structure Report where
  id : String
  issueType : String
  description : String
  location : String
  status : String
  timestamp : String
  lastUpdate : Option String
deriving DecidableEq

/-- A file held by the photo `<input type="file">`: its MIME type
(`file.type`) and the data URL a successful FileReader read yields. -/
structure JSFile where
  mimeType : String
  dataUrl : String
deriving DecidableEq

/-- The six text inputs of the report form, by their `name`
attributes (app.js reads `form.issueType.value` etc.; the `location`
input is the one the map click handler writes). -/
structure FormFields where
  issueType : String
  description : String
  location : String
  reporterName : String
  reporterEmail : String
  reporterPhone : String
deriving DecidableEq

/-- `form.reset()` restores the inputs to their HTML defaults; the
form's inputs carry no default values, so every field becomes empty
(spec 4.3: "reset the form to empty"). -/
def emptyForm : FormFields :=
  { issueType := "", description := "", location := "",
    reporterName := "", reporterEmail := "", reporterPhone := "" }

/-- The JSON body of `GET /api/reports/stats`
(`{ total, pending, inProgress, resolved }`, all integers). -/
structure DashboardStats where
  total : Int
  pending : Int
  inProgress : Int
  resolved : Int
deriving DecidableEq

/-- The whole observable client state: the module globals of app.js
plus the DOM pieces its handlers read or write. -/
structure ClientState where
  /-- positions of the marker layers currently on the Leaflet map. -/
  mapMarkers : List Coord
  /-- the module-scoped `marker` variable: the last marker object
  created by the click handler (it keeps pointing at a marker even
  after `map.removeLayer(marker)` ran). -/
  marker : Option Coord
  /-- the module-scoped `selectedLocation` variable. -/
  selectedLocation : Option Coord
  /-- current values of the form inputs. -/
  form : FormFields
  /-- files currently held by the photo input. -/
  photoFiles : List JSFile
  /-- data URLs of the `<img>` children of `#photo-preview`. -/
  photoPreviews : List String
  /-- the reports whose rendered elements fill `#reports-list`. -/
  reportsList : List Report
  /-- textContent of `#total-reports`. -/
  dashTotal : String
  /-- textContent of `#pending-reports`. -/
  dashPending : String
  /-- textContent of `#in-progress-reports`. -/
  dashInProgress : String
  /-- textContent of `#resolved-reports`. -/
  dashResolved : String
  /-- `some rid` when the success modal is visible showing `rid`. -/
  modalReportId : Option String
  /-- the `alert(...)` messages raised so far, oldest first. -/
  alerts : List String
deriving DecidableEq

/-- Outcome of one `fetch` call, one constructor per control path in
app.js: `success v` = 2xx response whose body parsed to `v`;
`badJson` = 2xx response but `response.json()` threw; `httpError` =
response arrived with `response.ok` false; `networkError` = the
`fetch` itself threw (offline etc.). -/
inductive FetchOutcome (α : Type) where
  | success (value : α)
  | badJson
  | httpError
  | networkError

/-- JS `str.toUpperCase()` (ASCII-relevant part): upper-case every
character. -/
def jsToUpperCase (s : String) : String :=
  String.mk (s.data.map Char.toUpper)

/-- Left-pad a string with zeros to the given length. -/
def padLeftZeros (s : String) (len : Nat) : String :=
  String.mk (List.replicate (len - s.length) '0') ++ s

/-- The integer nearest to `x * 10^6` with ties to the larger value,
for `x ≥ 0` (the `n` of ECMA-262 `Number.prototype.toFixed`, i.e.
`⌊x * 10^6 + 1/2⌋`, computed on the fraction's representation so the
kernel can evaluate it). -/
def fixed6Int (x : Rat) : Int :=
  (2 * x.num * 1000000 + x.den) / (2 * x.den)

/-- Decimal rendering of a non-negative rational to exactly six
fraction digits (ECMA-262 `toFixed` on the magnitude): print
`fixed6Int x` as integer part dot zero-padded fraction part. -/
def fixed6Mag (x : Rat) : String :=
  toString (fixed6Int x / 1000000) ++ "." ++
    padLeftZeros (toString (fixed6Int x % 1000000)) 6

/-- JS `x.toFixed(6)`: sign first, then the six-digit rendering of
the magnitude. -/
def jsToFixed6 (x : Rat) : String :=
  if x < 0 then "-" ++ fixed6Mag (-x) else fixed6Mag x

/-- Leaflet `map.removeLayer(m)`: removes that marker from the map if
it is present, otherwise does nothing. -/
def removeMarkerLayer (layers : List Coord) (m : Coord) : List Coord :=
  match layers with
  | [] => []
  | c :: cs => if c = m then cs else c :: removeMarkerLayer cs m

/-- The `if (marker) { map.removeLayer(marker); }` idiom shared by
the map click handler and the successful-submission path. -/
def removeCurrentMarker (s : ClientState) : List Coord :=
  match s.marker with
  | some m => removeMarkerLayer s.mapMarkers m
  | none => s.mapMarkers

/-- The map click handler registered in `initializeMap`
(app.js lines 48-61): remove the existing marker if any, add a marker
at the clicked coordinate, store it in `selectedLocation`, and write
`lat.toFixed(6) ++ ", " ++ lng.toFixed(6)` into the location input. -/
def mapClick (s : ClientState) (c : Coord) : ClientState :=
  { s with
    mapMarkers := removeCurrentMarker s ++ [c],
    marker := some c,
    selectedLocation := some c,
    form := { s.form with
              location := jsToFixed6 c.lat ++ ", " ++ jsToFixed6 c.lng } }

/-- Run a sequence of map clicks, oldest first. -/
def runClicks (s : ClientState) : List Coord → ClientState
  | [] => s
  | c :: cs => runClicks (mapClick s c) cs

/-- `file.type.startsWith('image/')` (app.js line 95). -/
def isImageFile (f : JSFile) : Bool :=
  "image/".data.isPrefixOf f.mimeType.data

/-- `handlePhotoPreview` (app.js lines 89-105): on a change event the
input now holds `files`; the preview container's innerHTML is cleared
and one `<img>` is appended per image-typed file once its FileReader
load completes (the quiescent state after all loads). -/
def handlePhotoPreview (s : ClientState) (files : List JSFile) : ClientState :=
  { s with
    photoFiles := files,
    photoPreviews := (files.filter isImageFile).map JSFile.dataUrl }

/-- The `reportData` object assembled by `handleReportSubmission`
(app.js lines 115-125): current field values, the current
`selectedLocation` (possibly null), a client-generated ISO timestamp
and the fixed initial status `"pending"`. -/
structure ReportPayload where
  issueType : String
  description : String
  location : String
  coordinates : Option Coord
  reporterName : String
  reporterEmail : String
  reporterPhone : String
  timestamp : String
  status : String
deriving DecidableEq

/-- Assemble the `reportData` payload from the current state;
`nowIso` is `new Date().toISOString()`. -/
def buildReportPayload (s : ClientState) (nowIso : String) : ReportPayload :=
  { issueType := s.form.issueType,
    description := s.form.description,
    location := s.form.location,
    coordinates := s.selectedLocation,
    reporterName := s.form.reporterName,
    reporterEmail := s.form.reporterEmail,
    reporterPhone := s.form.reporterPhone,
    timestamp := nowIso,
    status := "pending" }

/-- `handleReportSubmission` (app.js lines 108-160), parameterised by
the outcome of the POST and by `Date.now()` (`now`, in milliseconds).
On a parsed 2xx response: show the modal with `result.reportId`,
reset the form, clear the previews, and `removeLayer` the current
marker (the `marker` and `selectedLocation` variables are NOT
cleared).  On a non-2xx response: only `alert(...)`.  When `fetch`
throws, or when `response.json()` throws on a 2xx response, the catch
block runs: modal with `'RPT' + Date.now()`, reset the form, clear
the previews, and leave the map marker alone. -/
def handleReportSubmission (s : ClientState) (outcome : FetchOutcome String)
    (now : Nat) : ClientState :=
  match outcome with
  | .success rid =>
      { s with
        modalReportId := some rid,
        form := emptyForm,
        photoFiles := [],
        photoPreviews := [],
        mapMarkers := removeCurrentMarker s }
  | .httpError =>
      { s with alerts := s.alerts ++ ["Error submitting report. Please try again."] }
  | .badJson | .networkError =>
      { s with
        modalReportId := some ("RPT" ++ toString now),
        form := emptyForm,
        photoFiles := [],
        photoPreviews := [] }

/-- JS `str.replace('-', ' ')` on the character list: a string
pattern replaces only the FIRST occurrence. -/
def jsReplaceFirstHyphen : List Char → List Char
  | [] => []
  | c :: cs => if c = '-' then ' ' :: cs else c :: jsReplaceFirstHyphen cs

/-- JS `str.replace('-', ' ')` as used on `report.issueType`
(app.js line 212). -/
def jsReplaceHyphenWithSpace (s : String) : String :=
  String.mk (jsReplaceFirstHyphen s.data)

/-- The displayed pieces of one entry built by `createReportElement`
(app.js lines 203-220).  The `Reported:` line goes through
`new Date(...).toLocaleDateString()`, which is locale- and
timezone-dependent and is not modelled. -/
structure ReportElement where
  idLabel : String
  statusClass : String
  statusLabel : String
  issueTypeLabel : String
  locationLine : String
  descriptionLine : String
  lastUpdateLine : Option String
deriving DecidableEq

/-- `createReportElement` (app.js lines 203-220). -/
def createReportElement (r : Report) : ReportElement :=
  { idLabel := "Report ID: " ++ r.id,
    statusClass := r.status,
    statusLabel := jsToUpperCase r.status,
    issueTypeLabel := jsToUpperCase (jsReplaceHyphenWithSpace r.issueType),
    locationLine := r.location,
    descriptionLine := r.description,
    lastUpdateLine := r.lastUpdate }

/-- `displayReports` (app.js lines 192-200): clear the list container
and append one element per report. -/
def displayReports (s : ClientState) (reports : List Report) : ClientState :=
  { s with reportsList := reports }

/-- The fixed demo list in `displayDemoReports`
(app.js lines 252-271). -/
def demoReports : List Report :=
  [ { id := "RPT1234567890",
      issueType := "road-damage",
      description := "Large pothole on Main Street causing traffic issues",
      location := "Main Street, Downtown",
      status := "in-progress",
      timestamp := "2024-01-15T10:30:00Z",
      lastUpdate := some "Work crew assigned, repair scheduled for next week" },
    { id := "RPT1234567891",
      issueType := "water-leak",
      description := "Water leak near the park entrance",
      location := "Central Park Entrance",
      status := "resolved",
      timestamp := "2024-01-10T14:20:00Z",
      lastUpdate := some "Leak repaired successfully" } ]

/-- `displayDemoReports` (app.js lines 251-274). -/
def displayDemoReports (s : ClientState) : ClientState :=
  displayReports s demoReports

/-- `searchReports` (app.js lines 174-189), parameterised by the
outcome of the GET.  The returned Bool records whether a network
request was issued.  `if (!searchTerm) return;` — the empty string is
the only falsy input value.  A parsed 2xx response is rendered; a
non-2xx response does nothing (no else branch); a thrown `fetch` or a
throwing `response.json()` lands in the catch block, which renders
the demo list. -/
def searchReports (s : ClientState) (term : String)
    (outcome : FetchOutcome (List Report)) : ClientState × Bool :=
  if term = "" then (s, false)
  else
    match outcome with
    | .success reports => (displayReports s reports, true)
    | .httpError => (s, true)
    | .badJson | .networkError => (displayDemoReports s, true)

/-- `updateDashboard` (app.js lines 243-248): write the four counts
(JS number-to-string coercion via textContent assignment). -/
def updateDashboard (s : ClientState) (stats : DashboardStats) : ClientState :=
  { s with
    dashTotal := toString stats.total,
    dashPending := toString stats.pending,
    dashInProgress := toString stats.inProgress,
    dashResolved := toString stats.resolved }

/-- The hard-coded demo snapshot in `loadDashboardData`
(app.js lines 233-238). -/
def fallbackStats : DashboardStats :=
  { total := 156, pending := 23, inProgress := 45, resolved := 88 }

/-- `loadDashboardData` (app.js lines 223-240), parameterised by the
outcome of the GET.  A parsed 2xx response is rendered; a non-2xx
response does nothing (no else branch); a thrown `fetch` or a
throwing `response.json()` lands in the catch block, which renders
the hard-coded snapshot. -/
def loadDashboardData (s : ClientState)
    (outcome : FetchOutcome DashboardStats) : ClientState :=
  match outcome with
  | .success stats => updateDashboard s stats
  | .httpError => s
  | .badJson | .networkError => updateDashboard s fallbackStats

/-- States whose map carries at most the marker the `marker` variable
tracks: no marker at all, or exactly the one last created.  Holds
initially (no markers) and is preserved by every handler. -/
def markerInvariant (s : ClientState) : Prop :=
  s.mapMarkers = [] ∨ ∃ m, s.marker = some m ∧ s.mapMarkers = [m]

/-- A concrete state for witnesses: the page as it looks after load,
with the dashboard placeholders still showing "0". -/
def sampleState : ClientState :=
  { mapMarkers := [], marker := none, selectedLocation := none,
    form := emptyForm, photoFiles := [], photoPreviews := [],
    reportsList := [], dashTotal := "0", dashPending := "0",
    dashInProgress := "0", dashResolved := "0",
    modalReportId := none, alerts := [] }

/-- The label the spec's words prescribe for the issue type:
"separators replaced, upper-cased for display" — EVERY `-` becomes a
space, then upper-case.  Spec-side definition, for comparison with
what `createReportElement` computes. -/
def specIssueTypeLabel (t : String) : String :=
  jsToUpperCase (String.mk (t.data.map fun c => if c = '-' then ' ' else c))

/-- A concrete state with one map click taken: used to exercise the
submission paths from a state that actually has a marker and a
selection. -/
def clickedState : ClientState :=
  mapClick sampleState (Coord.mk 1 2)

/-- A concrete report whose issue type contains two hyphens. -/
def multiHyphenReport : Report :=
  { id := "RPT77", issueType := "street-light-out",
    description := "lamp dark", location := "5th Ave",
    status := "pending", timestamp := "2024-02-02T00:00:00Z",
    lastUpdate := none }

/-- A concrete report whose issue type contains one hyphen. -/
def roadReport : Report :=
  { id := "RPT78", issueType := "road-damage",
    description := "pothole", location := "Main St",
    status := "pending", timestamp := "2024-02-03T00:00:00Z",
    lastUpdate := none }

/-- Under the marker invariant, the `if (marker) removeLayer` idiom
leaves the map with no markers. -/
theorem removeCurrentMarker_eq_nil (s : ClientState) (h : markerInvariant s) :
    removeCurrentMarker s = [] := by
  rcases h with h | ⟨m, hm, hl⟩
  · unfold removeCurrentMarker
    cases hmk : s.marker
    · exact h
    · rw [h]
      rfl
  · unfold removeCurrentMarker
    rw [hm, hl]
    simp [removeMarkerLayer]

/-- One map click from an invariant state: the map holds exactly the
new marker, and the selection and location field reflect it. -/
theorem mapClick_fields (s : ClientState) (c : Coord) (h : markerInvariant s) :
    (mapClick s c).mapMarkers = [c] ∧ (mapClick s c).marker = some c ∧
    (mapClick s c).selectedLocation = some c ∧
    (mapClick s c).form.location = jsToFixed6 c.lat ++ ", " ++ jsToFixed6 c.lng := by
  refine ⟨?_, rfl, rfl, rfl⟩
  show removeCurrentMarker s ++ [c] = [c]
  rw [removeCurrentMarker_eq_nil s h]
  rfl

/-- The marker invariant is preserved by a map click. -/
theorem markerInvariant_mapClick (s : ClientState) (c : Coord)
    (h : markerInvariant s) : markerInvariant (mapClick s c) :=
  Or.inr ⟨c, rfl, (mapClick_fields s c h).1⟩

/-- Replacing the first hyphen in `a ++ "-" ++ b` when `a` has no
hyphen yields `a ++ " " ++ b`, on character lists. -/
theorem jsReplaceFirstHyphen_append (a b : List Char)
    (h : ('-' : Char) ∉ a) :
    jsReplaceFirstHyphen (a ++ '-' :: b) = a ++ ' ' :: b := by
  induction a with
  | nil => simp [jsReplaceFirstHyphen]
  | cons c cs ih =>
      have hc : ¬ c = '-' := by
        intro hc
        exact h (hc ▸ List.mem_cons_self c cs)
      have hcs : ('-' : Char) ∉ cs := fun hm => h (List.mem_cons_of_mem c hm)
      simp [jsReplaceFirstHyphen, hc, ih hcs]

/-- Claim C1, as stated, is FALSE on the code: after a map click at
(1, 2) and a submission answered by a parsed 2xx response carrying
"RPT42", the stored coordinate selection is still (1, 2) — the
success path removes the marker layer but never nulls
`selectedLocation` — so a later submission without a new map click
still carries those coordinates. -/
theorem C1_selection_survives_success :
    (handleReportSubmission clickedState (FetchOutcome.success "RPT42") 0).selectedLocation
        = some (Coord.mk 1 2) ∧
    (buildReportPayload
        (handleReportSubmission clickedState (FetchOutcome.success "RPT42") 0)
        "2024-06-01T00:00:00Z").coordinates ≠ none := by
  decide

/-- Claim C1 (corrected): on a parsed 2xx response carrying a report
identifier the client shows it in the modal, resets the form, clears
the previews and removes the map marker, but the stored coordinate
selection is left unchanged, so a later submission without a new map
click carries the previous coordinates. -/
theorem C1_success_path (s : ClientState) (rid : String) (now : Nat)
    (ts : String) (h : markerInvariant s) :
    (handleReportSubmission s (FetchOutcome.success rid) now).modalReportId = some rid ∧
    (handleReportSubmission s (FetchOutcome.success rid) now).form = emptyForm ∧
    (handleReportSubmission s (FetchOutcome.success rid) now).photoPreviews = [] ∧
    (handleReportSubmission s (FetchOutcome.success rid) now).mapMarkers = [] ∧
    (handleReportSubmission s (FetchOutcome.success rid) now).selectedLocation
        = s.selectedLocation ∧
    (buildReportPayload (handleReportSubmission s (FetchOutcome.success rid) now)
        ts).coordinates = s.selectedLocation := by
  refine ⟨rfl, rfl, rfl, ?_, rfl, rfl⟩
  show removeCurrentMarker s = []
  exact removeCurrentMarker_eq_nil s h

/-- Witness for C1_success_path at the clicked state. -/
theorem C1_success_path_witness :
    markerInvariant clickedState ∧
    ((handleReportSubmission clickedState (FetchOutcome.success "RPT42") 0).modalReportId
        = some "RPT42" ∧
     (handleReportSubmission clickedState (FetchOutcome.success "RPT42") 0).form = emptyForm ∧
     (handleReportSubmission clickedState (FetchOutcome.success "RPT42") 0).photoPreviews = [] ∧
     (handleReportSubmission clickedState (FetchOutcome.success "RPT42") 0).mapMarkers = [] ∧
     (handleReportSubmission clickedState (FetchOutcome.success "RPT42") 0).selectedLocation
        = clickedState.selectedLocation ∧
     (buildReportPayload
        (handleReportSubmission clickedState (FetchOutcome.success "RPT42") 0)
        "2024-06-01T00:00:00Z").coordinates = clickedState.selectedLocation) :=
  ⟨Or.inr ⟨Coord.mk 1 2, rfl, rfl⟩,
   C1_success_path clickedState "RPT42" 0 "2024-06-01T00:00:00Z"
     (Or.inr ⟨Coord.mk 1 2, rfl, rfl⟩)⟩

/-- Claim C2, as stated, is FALSE on the code: when the stats request
comes back with a non-success HTTP status (no throw), the dashboard
handler does nothing — `if (response.ok)` has no else branch — so the
four fields keep their previous text ("0" here), not the fallback
counts. -/
theorem C2_http_error_renders_nothing :
    loadDashboardData sampleState FetchOutcome.httpError = sampleState ∧
    (loadDashboardData sampleState FetchOutcome.httpError).dashTotal = "0" ∧
    (loadDashboardData sampleState FetchOutcome.httpError).dashTotal ≠ "156" := by
  decide

/-- Claim C2 (corrected): the hard-coded fallback counts 156/23/45/88
are rendered exactly when the stats request throws (transport failure,
or a 2xx body that fails JSON parsing); a non-success HTTP status
leaves the dashboard fields unchanged. -/
theorem C2_fallback_only_on_throw (s : ClientState) :
    (loadDashboardData s FetchOutcome.networkError).dashTotal = "156" ∧
    (loadDashboardData s FetchOutcome.networkError).dashPending = "23" ∧
    (loadDashboardData s FetchOutcome.networkError).dashInProgress = "45" ∧
    (loadDashboardData s FetchOutcome.networkError).dashResolved = "88" ∧
    loadDashboardData s FetchOutcome.badJson
        = loadDashboardData s FetchOutcome.networkError ∧
    loadDashboardData s FetchOutcome.httpError = s :=
  ⟨rfl, rfl, rfl, rfl, rfl, rfl⟩

/-- Claim C3, as stated, is FALSE on the code: a search whose request
comes back with a non-success HTTP status (no throw) renders nothing —
`if (response.ok)` has no else branch and the catch block is not
reached — so the displayed list stays as it was (empty here) instead
of the two demo reports. -/
theorem C3_http_error_renders_nothing :
    (searchReports sampleState "pothole" FetchOutcome.httpError).1 = sampleState ∧
    (searchReports sampleState "pothole" FetchOutcome.httpError).1.reportsList = [] ∧
    demoReports ≠ [] := by
  decide

/-- Claim C3 (corrected): for a non-empty term, the fixed demo list
with identifiers RPT1234567890 and RPT1234567891 replaces the
displayed list exactly when the search request throws (transport
failure, or a 2xx body that fails JSON parsing); a non-success HTTP
status leaves the displayed list unchanged. -/
theorem C3_fallback_only_on_throw (s : ClientState) (t : String) (h : t ≠ "") :
    (searchReports s t FetchOutcome.networkError).1.reportsList = demoReports ∧
    demoReports.map Report.id = ["RPT1234567890", "RPT1234567891"] ∧
    searchReports s t FetchOutcome.badJson
        = searchReports s t FetchOutcome.networkError ∧
    searchReports s t FetchOutcome.httpError = (s, true) := by
  refine ⟨?_, by decide, ?_, ?_⟩ <;>
    simp [searchReports, displayDemoReports, displayReports, h]

/-- Witness for C3_fallback_only_on_throw at term "pothole". -/
theorem C3_fallback_only_on_throw_witness :
    ("pothole" : String) ≠ "" ∧
    ((searchReports sampleState "pothole" FetchOutcome.networkError).1.reportsList
        = demoReports ∧
     demoReports.map Report.id = ["RPT1234567890", "RPT1234567891"] ∧
     searchReports sampleState "pothole" FetchOutcome.badJson
        = searchReports sampleState "pothole" FetchOutcome.networkError ∧
     searchReports sampleState "pothole" FetchOutcome.httpError = (sampleState, true)) :=
  ⟨by decide, C3_fallback_only_on_throw sampleState "pothole" (by decide)⟩

/-- Claim C4 (confirmed): when the POST throws at transport level the
catch block synthesizes `'RPT' + Date.now()` (RPT followed by the
decimal digits of the millisecond timestamp), shows it in the success
modal, resets the form, clears the previews, and leaves the map
marker and the stored selection untouched — unlike the true-success
path, which removes the marker. -/
theorem C4_transport_failure_degraded_success (s : ClientState) (now : Nat) :
    (handleReportSubmission s FetchOutcome.networkError now).modalReportId
        = some ("RPT" ++ toString now) ∧
    (handleReportSubmission s FetchOutcome.networkError now).form = emptyForm ∧
    (handleReportSubmission s FetchOutcome.networkError now).photoPreviews = [] ∧
    (handleReportSubmission s FetchOutcome.networkError now).mapMarkers = s.mapMarkers ∧
    (handleReportSubmission s FetchOutcome.networkError now).marker = s.marker ∧
    (handleReportSubmission s FetchOutcome.networkError now).selectedLocation
        = s.selectedLocation :=
  ⟨rfl, rfl, rfl, rfl, rfl, rfl⟩

/-- Claim C5 (confirmed): on a non-success HTTP status the submission
handler only raises the generic alert; form fields, previews, photo
selection, map marker, stored selection and modal are all exactly as
before the submit. -/
theorem C5_http_error_leaves_state (s : ClientState) (now : Nat) :
    (handleReportSubmission s FetchOutcome.httpError now).alerts
        = s.alerts ++ ["Error submitting report. Please try again."] ∧
    (handleReportSubmission s FetchOutcome.httpError now).form = s.form ∧
    (handleReportSubmission s FetchOutcome.httpError now).photoPreviews = s.photoPreviews ∧
    (handleReportSubmission s FetchOutcome.httpError now).photoFiles = s.photoFiles ∧
    (handleReportSubmission s FetchOutcome.httpError now).mapMarkers = s.mapMarkers ∧
    (handleReportSubmission s FetchOutcome.httpError now).marker = s.marker ∧
    (handleReportSubmission s FetchOutcome.httpError now).selectedLocation
        = s.selectedLocation ∧
    (handleReportSubmission s FetchOutcome.httpError now).modalReportId = s.modalReportId :=
  ⟨rfl, rfl, rfl, rfl, rfl, rfl, rfl, rfl⟩

/-- Claim C6, as stated, is FALSE on the code: JS
`str.replace('-', ' ')` with a string pattern replaces only the FIRST
occurrence, so an issue type with two hyphens keeps its second hyphen
in the displayed label: "street-light-out" is shown as
"STREET LIGHT-OUT", not "STREET LIGHT OUT". -/
theorem C6_second_hyphen_survives :
    (createReportElement multiHyphenReport).issueTypeLabel = "STREET LIGHT-OUT" ∧
    specIssueTypeLabel multiHyphenReport.issueType = "STREET LIGHT OUT" ∧
    (createReportElement multiHyphenReport).issueTypeLabel
        ≠ specIssueTypeLabel multiHyphenReport.issueType := by
  decide

/-- Claim C6 (corrected): the displayed label is the stored issue
type with its FIRST hyphen replaced by a space, then upper-cased —
for issue types with at most one hyphen this replaces every
separator — and the underlying stored value is left unchanged by
rendering. -/
theorem C6_label_replaces_first_hyphen (r : Report) (a b : String)
    (ha : ('-' : Char) ∉ a.data) (hr : r.issueType = a ++ "-" ++ b)
    (s : ClientState) (rs : List Report) :
    (createReportElement r).issueTypeLabel = jsToUpperCase (a ++ " " ++ b) ∧
    (displayReports s rs).reportsList = rs := by
  refine ⟨?_, rfl⟩
  have hdata : (a ++ "-" ++ b).data = a.data ++ '-' :: b.data := by
    rw [String.data_append, String.data_append]
    simp
  have hrep : jsReplaceHyphenWithSpace (a ++ "-" ++ b) = a ++ " " ++ b := by
    apply String.ext
    show jsReplaceFirstHyphen (a ++ "-" ++ b).data = (a ++ " " ++ b).data
    rw [hdata, jsReplaceFirstHyphen_append a.data b.data ha,
        String.data_append, String.data_append]
    simp
  show jsToUpperCase (jsReplaceHyphenWithSpace r.issueType)
      = jsToUpperCase (a ++ " " ++ b)
  rw [hr, hrep]

/-- Witness for C6_label_replaces_first_hyphen at "road-damage". -/
theorem C6_label_replaces_first_hyphen_witness :
    (('-' : Char) ∉ ("road" : String).data) ∧
    roadReport.issueType = "road" ++ "-" ++ "damage" ∧
    ((createReportElement roadReport).issueTypeLabel
        = jsToUpperCase ("road" ++ " " ++ "damage") ∧
     (displayReports sampleState demoReports).reportsList = demoReports) :=
  ⟨by decide, by decide,
   C6_label_replaces_first_hyphen roadReport "road" "damage" (by decide) (by decide)
     sampleState demoReports⟩

/-- Claim C7 (confirmed): starting from any state whose map satisfies
the marker invariant (initially: no markers), after any non-empty
sequence of map clicks exactly one marker exists, at the last click's
coordinate; the stored selection equals that coordinate and the
location field holds its latitude and longitude formatted to six
decimal places. -/
theorem C7_click_sequence (s : ClientState) (clicks : List Coord) (c : Coord)
    (hinv : markerInvariant s) (hlast : clicks.getLast? = some c) :
    (runClicks s clicks).mapMarkers = [c] ∧
    (runClicks s clicks).marker = some c ∧
    (runClicks s clicks).selectedLocation = some c ∧
    (runClicks s clicks).form.location
        = jsToFixed6 c.lat ++ ", " ++ jsToFixed6 c.lng := by
  revert hlast
  induction clicks generalizing s with
  | nil =>
      intro hlast
      simp at hlast
  | cons c0 cs ih =>
      intro hlast
      cases cs with
      | nil =>
          have hc : c0 = c := by simpa using hlast
          subst hc
          simpa [runClicks] using mapClick_fields s c0 hinv
      | cons c1 cs1 =>
          have hlast' : (c1 :: cs1).getLast? = some c := by
            simpa [List.getLast?_cons_cons] using hlast
          simpa [runClicks] using
            ih (mapClick s c0) (markerInvariant_mapClick s c0 hinv) hlast'

/-- Witness for C7_click_sequence: one click at (1, 2) from the fresh
page, with the location string evaluated concretely. -/
theorem C7_click_sequence_witness :
    markerInvariant sampleState ∧
    ([Coord.mk 1 2].getLast? = some (Coord.mk 1 2)) ∧
    ((runClicks sampleState [Coord.mk 1 2]).mapMarkers = [Coord.mk 1 2] ∧
     (runClicks sampleState [Coord.mk 1 2]).marker = some (Coord.mk 1 2) ∧
     (runClicks sampleState [Coord.mk 1 2]).selectedLocation = some (Coord.mk 1 2) ∧
     (runClicks sampleState [Coord.mk 1 2]).form.location
        = jsToFixed6 (Coord.mk 1 2).lat ++ ", " ++ jsToFixed6 (Coord.mk 1 2).lng) ∧
    jsToFixed6 (Coord.mk 1 2).lat ++ ", " ++ jsToFixed6 (Coord.mk 1 2).lng
        = "1.000000, 2.000000" :=
  ⟨Or.inl rfl, rfl,
   C7_click_sequence sampleState [Coord.mk 1 2] (Coord.mk 1 2) (Or.inl rfl) rfl,
   by decide⟩

/-- Claim C8 (confirmed): a change of the photo selection fully
replaces the previews — the new preview count equals the number of
image-typed files in the new selection, independently of whatever was
displayed before (the result does not depend on the prior state). -/
theorem C8_previews_mirror_selection (s sPrev : ClientState) (files : List JSFile) :
    (handlePhotoPreview s files).photoPreviews.length = files.countP isImageFile ∧
    (handlePhotoPreview s files).photoPreviews
        = (handlePhotoPreview sPrev files).photoPreviews ∧
    (handlePhotoPreview s files).photoFiles = files := by
  refine ⟨?_, rfl, rfl⟩
  simp [handlePhotoPreview, List.countP_eq_length_filter]

/-- Claim C9 (confirmed): with the empty search term the handler
returns before the fetch — no request is issued (the Bool is false)
and the state, in particular the displayed list, is unchanged,
whatever the network would have answered. -/
theorem C9_empty_search_noop (s : ClientState) (outcome : FetchOutcome (List Report)) :
    searchReports s "" outcome = (s, false) :=
  rfl

/-- Claim C10 (confirmed): a 2xx response whose body fails JSON
parsing makes `await response.json()` throw inside the try block, so
the submission lands in the same catch path as a transport failure:
modal with the synthesized `'RPT' + Date.now()` identifier instead of
the server's, form reset, previews cleared, and the map marker and
stored selection left in place. -/
theorem C10_bad_json_is_catch_path (s : ClientState) (now : Nat) :
    handleReportSubmission s FetchOutcome.badJson now
        = handleReportSubmission s FetchOutcome.networkError now ∧
    (handleReportSubmission s FetchOutcome.badJson now).modalReportId
        = some ("RPT" ++ toString now) ∧
    (handleReportSubmission s FetchOutcome.badJson now).form = emptyForm ∧
    (handleReportSubmission s FetchOutcome.badJson now).photoPreviews = [] ∧
    (handleReportSubmission s FetchOutcome.badJson now).mapMarkers = s.mapMarkers ∧
    (handleReportSubmission s FetchOutcome.badJson now).marker = s.marker ∧
    (handleReportSubmission s FetchOutcome.badJson now).selectedLocation
        = s.selectedLocation :=
  ⟨rfl, rfl, rfl, rfl, rfl, rfl, rfl⟩
